import Mathlib

/-!
# Verification of the WorthTheWatch opinion-aggregation pipeline

Shallow embedding, in Lean 4, of the core algorithmic components of the
WorthTheWatch backend (`backend/app/services/...`), together with theorems
settling the specification claims about them.

Conventions used throughout:
* Python `int` is modelled as `ℤ`, Python `float` scores (IMDb/TMDB ratings)
  as `ℚ` (every literal appearing in the comparisons is exact in `ℚ`).
* `None` becomes `Option`, and Python truthiness of an optional number
  (`if x:`) becomes "present and nonzero".
* Wall-clock quantities are passed in pre-computed form (days since release,
  review age in hours); the date parsing itself is not modelled, a parse
  failure is the `none` case of the corresponding option.
* Strings are Lean `String`s; the few regular expressions in the source are
  compiled by hand into character-list matchers with the exact semantics the
  source relies on (word boundaries, leftmost match, `\s*` suffixes).
-/

namespace WorthTheWatch

/-- `List.isPrefixOf` as a plain recursive boolean, so that concrete instances
evaluate by `decide`. -/
def listPrefixOf : List Char → List Char → Bool
  | [], _ => true
  | _ :: _, [] => false
  | a :: as, b :: bs => a = b && listPrefixOf as bs

/-- Contiguous-substring test on character lists (Python's `needle in hay`). -/
def listInfixOf (needle : List Char) : List Char → Bool
  | [] => needle.isEmpty
  | b :: bs => listPrefixOf needle (b :: bs) || listInfixOf needle bs

/-- Python's `str.lower()` on a character list. -/
def lowerList (s : List Char) : List Char := s.map Char.toLower

/-- `needle in haystack` of Python, on strings. -/
def strContains (haystack needle : String) : Bool :=
  listInfixOf needle.toList haystack.toList

/-- `needle in haystack.lower()` of Python. -/
def strContainsLower (haystack needle : String) : Bool :=
  listInfixOf needle.toList (lowerList haystack.toList)

/-! ## Confidence scorer (`services/pipeline.py`, `calculate_confidence`) -/

/-- Result of `calculate_confidence`: the `stats` dict fields that matter. -/
structure ConfidenceStats where
  articlesRead : ℤ
  redditSources : ℤ
  opinionChars : ℤ
  daysSinceRelease : Option ℤ
  confidenceScore : ℤ
  confidenceTier : String
  deriving Repr, DecidableEq

/-- `calculate_confidence` from `services/pipeline.py` (lines 139-234).

`daysSinceRelease = none` models both a falsy `release_date` argument and a
date-parse exception; both add 10 points in the source. -/
def calculate_confidence (articles_read : ℤ) (selected_urls : List String)
    (filtered_opinion_chars : ℤ) (days_since_release : Option ℤ) : ConfidenceStats :=
  let sourceScore : ℤ :=
    if articles_read ≥ 8 then 25
    else if articles_read ≥ 5 then 15
    else if articles_read ≥ 3 then 8
    else 0
  let reddit_count : ℤ :=
    ((selected_urls.filter (fun url => strContainsLower url "reddit.com")).length : ℤ)
  let redditScore : ℤ :=
    if reddit_count ≥ 3 then 30
    else if reddit_count ≥ 1 then 15
    else 0
  let volumeScore : ℤ :=
    if filtered_opinion_chars ≥ 15000 then 25
    else if filtered_opinion_chars ≥ 8000 then 15
    else if filtered_opinion_chars ≥ 3000 then 8
    else 0
  let ageScore : ℤ :=
    match days_since_release with
    | some days_old =>
        if days_old > 365 then 20
        else if days_old > 90 then 15
        else if days_old > 30 then 8
        else 0
    | none => 10
  let score := sourceScore + redditScore + volumeScore + ageScore
  let tier := if score ≥ 70 then "HIGH" else if score ≥ 40 then "MEDIUM" else "LOW"
  { articlesRead := articles_read
    redditSources := reddit_count
    opinionChars := filtered_opinion_chars
    daysSinceRelease := days_since_release
    confidenceScore := score
    confidenceTier := tier }

/-! ## Freshness (`services/freshness.py`, `jobs/daily_sync.py`) -/

/-- `calculate_review_ttl_hours` from `services/freshness.py` (lines 11-50).

`days_since_release = none` models a falsy `release_date` or a strptime
failure, both of which return 48 in the source; `some d` is
`(now - release).days`, negative for an upcoming release. -/
def calculate_review_ttl_hours (days_since_release : Option ℤ) : ℤ :=
  match days_since_release with
  | none => 48
  | some d =>
      if d < 0 then 6
      else if d ≤ 7 then 12
      else if d ≤ 30 then 48
      else if d ≤ 90 then 168
      else 720

/-- `is_review_fresh` from `services/freshness.py` (lines 53-81).

`generated_age_hours = none` models a falsy `generated_at` or a
`fromisoformat` failure (both return `False`); `some a` is
`now - generated` expressed in hours, so the source's
`age < timedelta(hours=ttl_hours)` is `a < ttl`. -/
def is_review_fresh (generated_age_hours : Option ℚ) (days_since_release : Option ℤ) : Bool :=
  match generated_age_hours with
  | none => false
  | some age => age < (calculate_review_ttl_hours days_since_release : ℚ)

/-- The per-movie refresh decision of `smart_refresh` in `jobs/daily_sync.py`
(lines 145-168): whether a movie with the given release age and review age is
added to the refresh candidate list.  The `90+ days → continue` branch of the
source is the final `false`. -/
def smart_refresh_needs_refresh (days_since_release : ℤ) (review_age_hours : ℚ) : Bool :=
  if days_since_release < 14 then decide (review_age_hours > 24)
  else if days_since_release < 30 then decide (review_age_hours > 72)
  else if days_since_release < 90 then decide (review_age_hours > 168)
  else false

/-! ## LLM output schema (`app/schemas.py`, `LLMReviewOutput`)

The pydantic model declares exactly the fields below (`hook`,
`critic_sentiment`, `reddit_sentiment` passed by `llm.py` are *not* declared
on the model and are dropped by pydantic's default `extra="ignore"`, so they
do not appear here).  Defaults are the pydantic defaults. -/

structure LLMReviewOutput where
  review_text : String
  verdict : String
  praise_points : List String := []
  criticism_points : List String := []
  vibe : String := ""
  confidence : String := "MEDIUM"
  tags : List String := []
  best_quote : String := ""
  quote_source : String := ""
  positive_pct : Option ℤ := none
  negative_pct : Option ℤ := none
  mixed_pct : Option ℤ := none
  deriving Repr, DecidableEq

/-! ## Verdict policy engine (`services/pipeline.py`, lines 716-827)

The post-synthesis override chain of `generate_review_for_movie`.  Helpers
mirror the Python truthiness idioms used there: an optional number is truthy
when present and nonzero. -/

/-- `imdb_score if imdb_score else movie.tmdb_vote_average` (line 723). -/
def resolveOverrideScore (imdb_score : Option ℚ) (tmdb_vote_average : Option ℚ) : Option ℚ :=
  match imdb_score with
  | some s => if s ≠ 0 then some s else tmdb_vote_average
  | none => tmdb_vote_average

/-- `imdb_votes if imdb_votes else (movie.tmdb_vote_count or 0)` (line 724). -/
def resolveOverrideVotes (imdb_votes : Option ℤ) (tmdb_vote_count : Option ℤ) : ℤ :=
  match imdb_votes with
  | some v => if v ≠ 0 then v else tmdb_vote_count.getD 0
  | none => tmdb_vote_count.getD 0

/-- `override_score and override_score > c`. -/
def scoreAbove (score : Option ℚ) (c : ℚ) : Bool :=
  match score with
  | some s => decide (s ≠ 0) && decide (s > c)
  | none => false

/-- `override_score and override_score < c`. -/
def scoreBelow (score : Option ℚ) (c : ℚ) : Bool :=
  match score with
  | some s => decide (s ≠ 0) && decide (s < c)
  | none => false

/-- `override_score and lo <= override_score < hi`. -/
def scoreBetween (score : Option ℚ) (lo hi : ℚ) : Bool :=
  match score with
  | some s => decide (s ≠ 0) && decide (lo ≤ s) && decide (s < hi)
  | none => false

/-- `override_votes and override_votes > c`. -/
def votesAbove (votes : ℤ) (c : ℤ) : Bool :=
  decide (votes ≠ 0) && decide (votes > c)

/-- `llm_output.positive_pct and llm_output.positive_pct < c`. -/
def pctTruthyBelow (pct : Option ℤ) (c : ℤ) : Bool :=
  match pct with
  | some p => decide (p ≠ 0) && decide (p < c)
  | none => false

/-- `llm_output.positive_pct and llm_output.positive_pct >= c`. -/
def pctTruthyAtLeast (pct : Option ℤ) (c : ℤ) : Bool :=
  match pct with
  | some p => decide (p ≠ 0) && decide (p ≥ c)
  | none => false

/-- The verdict override chain of `generate_review_for_movie`
(`services/pipeline.py` lines 716-827), ending with the confidence overwrite
of line 827.

The binding of `override_score`/`override_votes` happens *inside* the
`if llm_output.positive_pct is not None and llm_output.negative_pct is not None`
block (lines 716-724) while the later rules (lines 768-815) sit outside it and
read those names unconditionally, so when either percentage is absent the
source raises `NameError`; that path is the `.error ()` case. -/
def applyVerdictOverrides (out : LLMReviewOutput)
    (imdb_score : Option ℚ) (imdb_votes : Option ℤ)
    (tmdb_vote_average : Option ℚ) (tmdb_vote_count : Option ℤ)
    (confidence_tier : String) (articles_read : ℤ) : Except Unit LLMReviewOutput :=
  match out.positive_pct, out.negative_pct with
  | some pos, some _neg =>
      let score := resolveOverrideScore imdb_score tmdb_vote_average
      let votes := resolveOverrideVotes imdb_votes tmdb_vote_count
      -- High Score Privilege (lines 729-755)
      let v1 : String :=
        if scoreAbove score 7.5 && votesAbove votes 500 && !(out.verdict == "WORTH IT") then
          if (out.criticism_points.length : ℤ) > (out.praise_points.length : ℤ) then out.verdict
          else if pctTruthyBelow out.positive_pct 45 then out.verdict
          else "WORTH IT"
        else out.verdict
      -- NOT WORTH IT requires strong negative signal (lines 758-760)
      let v2 := if v1 == "NOT WORTH IT" && decide (pos > 60) then "MIXED BAG" else v1
      -- Low Score Safety Net, score < 6.0 (lines 768-788)
      let v3 :=
        if scoreBelow score 6 && votesAbove votes 100 && v2 == "WORTH IT" then
          if pctTruthyAtLeast out.positive_pct 80 then v2 else "MIXED BAG"
        else v2
      -- Hard Low Score Override, score < 5.0 (lines 791-801)
      let v4 :=
        if scoreBelow score 5 && votesAbove votes 200
            && (v3 == "WORTH IT" || v3 == "MIXED BAG") then "NOT WORTH IT"
        else v3
      -- 5.0 <= score < 6.0 demotion (lines 805-815)
      let v5 :=
        if scoreBetween score 5 6 && votesAbove votes 200 && v4 == "WORTH IT"
            && !(pctTruthyAtLeast out.positive_pct 80) then "MIXED BAG"
        else v4
      -- LOW confidence demotion (lines 820-824)
      let v6 :=
        if confidence_tier == "LOW" && v5 == "WORTH IT" && decide (articles_read < 3) then
          "MIXED BAG"
        else v5
      .ok { out with verdict := v6, confidence := confidence_tier }
  | _, _ => .error ()

/-! ## Title-relevance matchers (`services/grep.py`, `services/guardian.py`)

The two regular expressions involved (`\bTITLE\b` searched leftmost, and the
single-word super-strict pattern
`(?:^|\s)TITLE(?:\s*[\(\[\-–:]|\s*YEAR|\s*review|\s*$)`) are compiled by hand
into character-list matchers below. -/

/-- Python `\w` on the ASCII/word characters these titles use. -/
def isWordChar (c : Char) : Bool := c.isAlphanum || c = '_'

/-- Word-ness of an optional character; absent counts as non-word. -/
def optIsWord : Option Char → Bool
  | some c => isWordChar c
  | none => false

/-- `\b`: a boundary sits between two (optional) characters iff their
word-ness differs. -/
def boundaryAt (a b : Option Char) : Bool := optIsWord a != optIsWord b

/-- Drop `pat` from the front of `s`, or fail. -/
def dropPrefixCL : List Char → List Char → Option (List Char)
  | [], s => some s
  | _ :: _, [] => none
  | a :: as, b :: bs => if a = b then dropPrefixCL as bs else none

/-- Leftmost `re.search` of `\b pat \b` in `s`: returns the text after the
match (`s[match.end():]`), tracking the previous character for the left
boundary. -/
def wbFindRest (pat : List Char) : Option Char → List Char → Option (List Char)
  | prev, s =>
    let here : Option (List Char) :=
      match dropPrefixCL pat s with
      | some rest =>
          if boundaryAt prev pat.head? && boundaryAt pat.getLast? rest.head? then some rest
          else none
      | none => none
    match here with
    | some rest => some rest
    | none =>
        match s with
        | [] => none
        | c :: cs => wbFindRest pat (some c) cs

/-- Whether `\b pat \b` occurs anywhere in `s`. -/
def wbSearch (pat s : List Char) : Bool := (wbFindRest pat none s).isSome

/-- Python `str.strip()`. -/
def pyStrip (s : List Char) : List Char :=
  ((s.dropWhile Char.isWhitespace).reverse.dropWhile Char.isWhitespace).reverse

/-- Helper for `pySplitWs`, accumulating the current word reversed. -/
def pySplitWsAux : List Char → List Char → List (List Char)
  | [], acc => if acc.isEmpty then [] else [acc.reverse]
  | c :: cs, acc =>
      if c.isWhitespace then
        if acc.isEmpty then pySplitWsAux cs []
        else acc.reverse :: pySplitWsAux cs []
      else pySplitWsAux cs (c :: acc)

/-- Python `str.split()` (split on whitespace runs, no empty words). -/
def pySplitWs (s : List Char) : List (List Char) := pySplitWsAux s []

/-- The per-result relevance test of `select_best_sources`
(`services/grep.py` lines 210-236): short means **at most 3 characters**
(`len(title_lower) <= 3`), in which case a bare `\b...\b` search over the
lowercased result title, snippet and link decides; otherwise plain substring
containment. -/
def titleRelevanceMatch (movie_title r_title r_snippet r_link : String) : Bool :=
  let title_lower := pyStrip (lowerList movie_title.toList)
  let rt := lowerList r_title.toList
  let rs := lowerList r_snippet.toList
  let rl := lowerList r_link.toList
  if title_lower.length ≤ 3 then
    wbSearch title_lower rt || wbSearch title_lower rs || wbSearch title_lower rl
  else
    listInfixOf title_lower rt || listInfixOf title_lower rs || listInfixOf title_lower rl

/-- The suffix alternation of the single-word super-strict pattern:
`(?:\s*[\(\[\-–:]|\s*YEAR|\s*review|\s*$)` applied at `rest`.  With an empty
`year` the second alternative is the regex `\s*`, which matches trivially. -/
def superStrictTail (year rest : List Char) : Bool :=
  if year.isEmpty then true
  else
    let r := rest.dropWhile Char.isWhitespace
    (match r with
     | c :: _ => c = '(' || c = '[' || c = '-' || c = '–' || c = ':'
     | [] => false)
    || listPrefixOf year r
    || listPrefixOf "review".toList r
    || r.isEmpty

/-- `re.search` of `(?:^|\s)TITLE(?:\s*[\(\[\-–:]|\s*YEAR|\s*review|\s*$)`:
the title must sit at the start or right after a whitespace character, and be
followed by one of the suffix alternatives. -/
def superStrictAux (title year : List Char) : Option Char → List Char → Bool
  | prev, s =>
    let okHere :=
      (match prev with
       | none => true
       | some c => c.isWhitespace)
      && (match dropPrefixCL title s with
          | some rest => superStrictTail year rest
          | none => false)
    okHere ||
      (match s with
       | [] => false
       | c :: cs => superStrictAux title year (some c) cs)

/-- `_title_matches` from `services/guardian.py` (lines 43-97).  Short titles
(≤ 3 words) match on the **headline only**: single-word titles must first
pass the super-strict pattern, then the leftmost `\b...\b` match must not be
followed by one of the conjunctions `of/and/in/the/for/with/from`.  Longer
titles use a word-boundary search over headline or (if truthy) snippet. -/
def title_matches (title headline snippet year : String) : Bool :=
  let title_lower := pyStrip (lowerList title.toList)
  let headline_lower := pyStrip (lowerList headline.toList)
  let title_words := pySplitWs title_lower
  if title_words.length ≤ 3 then
    let pass1 :=
      if title_words.length = 1 then superStrictAux title_lower year.toList none headline_lower
      else true
    if !pass1 then false
    else
      match wbFindRest title_lower none headline_lower with
      | none => false
      | some rest =>
          let after := pyStrip rest
          if after.isEmpty then true
          else
            match pySplitWs after with
            | [] => true
            | w :: _ =>
                !((["of", "and", "in", "the", "for", "with", "from"].map
                    String.toList).contains w)
  else
    wbSearch title_lower headline_lower ||
      (!snippet.isEmpty && wbSearch title_lower (lowerList snippet.toList))

/-! ## Community (Reddit) retrieval state machine (`services/jina.py`)

`ArticleReader.read_urls` resets `_google_cache_blocked`, then
`_read_reddit_urls` (lines 136-221) tests one URL and either fetches the rest
directly (with a per-URL cache fallback) or routes every remaining URL to
`_fetch_google_cache` (lines 257-293), which flips the blocked flag on a 429
or a 302-to-sorry response.  Network outcomes are supplied by oracles
(`direct`, `cache`) indexed by URL; the cooperative-concurrency gather is
modelled by its serialized schedule, each URL handler running atomically in
task-creation order. -/

/-- Outcome of one `_fetch_google_cache` HTTP exchange. -/
inductive CacheOutcome where
  | content (s : String)
  | noContent
  | rateLimited
  deriving Repr, DecidableEq

/-- Observable retrieval actions of one batch. -/
inductive RedditEvent where
  | directFetch (i : ℕ)
  | cacheFetch (i : ℕ)
  | cacheSkip (i : ℕ)
  deriving Repr, DecidableEq

/-- `_fetch_google_cache` (lines 257-293): given the current blocked flag and
the HTTP outcome, returns the new flag and the optional content.  Rate
limiting (429, or 302 to a sorry page) sets the flag and yields no content. -/
def fetch_google_cache : Bool → CacheOutcome → Bool × Option String
  | _, .rateLimited => (true, none)
  | blocked, .noContent => (blocked, none)
  | blocked, .content s => (blocked, some s)

/-- The blocked branch of `_read_reddit_urls` (lines 196-219): every
remaining URL goes through `_cache_reddit`, which skips when the blocked
flag is already set and otherwise performs a cache fetch. -/
def cacheLoop (cache : ℕ → CacheOutcome) :
    Bool → List ℕ → Bool × List (ℕ × Option String) × List RedditEvent
  | blocked, [] => (blocked, [], [])
  | blocked, i :: is =>
      if blocked then
        let r := cacheLoop cache blocked is
        (r.1, (i, none) :: r.2.1, .cacheSkip i :: r.2.2)
      else
        let g := fetch_google_cache blocked (cache i)
        let r := cacheLoop cache g.1 is
        (r.1, (i, g.2) :: r.2.1, .cacheFetch i :: r.2.2)

/-- The success branch of `_read_reddit_urls` (lines 163-187): each remaining
URL is fetched directly via old.reddit.com, with an individual cache fallback
when the direct fetch yields nothing (that fallback does *not* consult the
blocked flag first — only `_fetch_google_cache` itself updates it). -/
def successLoop (direct : ℕ → Option String) (cache : ℕ → CacheOutcome) :
    Bool → List ℕ → Bool × List (ℕ × Option String) × List RedditEvent
  | blocked, [] => (blocked, [], [])
  | blocked, i :: is =>
      match direct i with
      | some s =>
          let r := successLoop direct cache blocked is
          (r.1, (i, some s) :: r.2.1, .directFetch i :: r.2.2)
      | none =>
          let g := fetch_google_cache blocked (cache i)
          let r := successLoop direct cache g.1 is
          (r.1, (i, g.2) :: r.2.1, .directFetch i :: .cacheFetch i :: r.2.2)

/-- Result of `_read_reddit_urls` on one batch. -/
structure RedditBatchResult where
  articles : List String
  failed : List ℕ
  events : List RedditEvent
  deriving Repr, DecidableEq

/-- `_read_reddit_urls` (lines 136-221).  URLs are identified by their index;
the blocked flag starts `false` because `read_urls` resets it per batch. -/
def read_reddit_urls (direct : ℕ → Option String) (cache : ℕ → CacheOutcome) :
    List ℕ → RedditBatchResult
  | [] => ⟨[], [], []⟩
  | t :: rest =>
      match direct t with
      | some s =>
          let r := successLoop direct cache false rest
          ⟨s :: r.2.1.filterMap (·.2),
           (r.2.1.filter (fun p => p.2.isNone)).map (·.1),
           .directFetch t :: r.2.2⟩
      | none =>
          let r := cacheLoop cache false rest
          ⟨r.2.1.filterMap (·.2),
           t :: (r.2.1.filter (fun p => p.2.isNone)).map (·.1),
           .directFetch t :: r.2.2⟩

/-- Whether an event is a direct community fetch. -/
def RedditEvent.isDirect : RedditEvent → Bool
  | .directFetch _ => true
  | _ => false

/-! ## Search fan-out (`services/pipeline.py` lines 413-486)

`generate_review_for_movie` gathers seven branches with
`return_exceptions=True` and unpacks each with an `isinstance(_, Exception)`
check; an errored branch becomes `[]` (or `None` for the scalar branches)
and the survivors are concatenated.  A branch value is `.error ()` when the
gather returned an exception object for it. -/

/-- One merged search result (`{"title", "link", "snippet"}`). -/
structure SearchResultR where
  title : String
  link : String
  snippet : String
  deriving Repr, DecidableEq

/-- A Guardian article as used by the merge (lines 476-477). -/
structure GuardianArticleR where
  url : String
  headline : String
  snippet : String
  deriving Repr, DecidableEq

/-- An NYT review as used by the merge (lines 478-479). -/
structure NYTReviewR where
  url : String
  headline : String
  summary : String
  deriving Repr, DecidableEq

/-- Lines 432-436 and 473-479: unpack the five list-valued branches and build
`all_results`. -/
def unpackSearchGather (r0 r1 r2 : Except Unit (List SearchResultR))
    (r3 : Except Unit (List GuardianArticleR)) (r4 : Except Unit (List NYTReviewR)) :
    List SearchResultR :=
  let serper_critics := match r0 with | .ok l => l | .error _ => []
  let serper_reddit := match r1 with | .ok l => l | .error _ => []
  let serper_forums := match r2 with | .ok l => l | .error _ => []
  let guardian_results := match r3 with | .ok l => l | .error _ => []
  let nyt_results := match r4 with | .ok l => l | .error _ => []
  serper_critics ++ serper_reddit ++ serper_forums
    ++ guardian_results.map (fun a => ⟨a.headline, a.url, a.snippet⟩)
    ++ nyt_results.map (fun a => ⟨a.headline, a.url, a.summary⟩)

/-- Line 437: the trusted-rating branch, `None` on error. -/
def unpackOmdb {α : Type} (r5 : Except Unit (Option α)) : Option α :=
  match r5 with
  | .ok v => v
  | .error _ => none

/-- Python positional-call compatibility: a call with `given` positional
arguments binds against a signature with `required` mandatory and `optional`
defaulted parameters iff `required ≤ given ≤ required + optional`;
otherwise the call raises `TypeError` before the coroutine exists. -/
def pyCallBinds (required optional given : ℕ) : Prop :=
  required ≤ given ∧ given ≤ required + optional

/-- `SerperService.search_reviews(self, title, year="", media_type="movie")`
(`services/serper.py` line 156): 1 required, 2 defaulted parameters.  The
same signature shape holds for `search_reddit` and `search_forums`. -/
def serper_search_required : ℕ := 1

/-- Defaulted parameters of the serper search methods. -/
def serper_search_optional : ℕ := 2

/-- The pipeline call sites (`pipeline.py` lines 421-423) pass four
positional arguments: query, year, media type, director context. -/
def pipeline_serper_call_args : ℕ := 4

/-! ## Review synthesizer (`services/llm.py`)

`synthesize_review` (lines 213-420): prompt-size cap, three-tier provider
failover, JSON parse/repair, and the static fallbacks.  Network and JSON
parsing are external; each provider call's outcome and the `json.loads`
result are supplied by the world/oracle, everything after them is embedded
from the source. -/

/-- The apostrophe character, kept out of literals. -/
def aposChar : Char := Char.ofNat 39

/-- The backtick character, kept out of literals. -/
def backtickChar : Char := Char.ofNat 96

/-- The backslash character. -/
def backslashChar : Char := Char.ofNat 92

/-- The quote characters of `sanitize_text`'s `startswith`/`endswith` tuple. -/
def quoteChars : List Char := ['"', aposChar, backtickChar]

/-- The character set of `text.strip(" \"'`\x22)` in `sanitize_text`. -/
def stripQuoteSet : List Char := [' ', '"', aposChar, backtickChar]

/-- Python `str.strip(chars)`. -/
def pyStripSet (cs : List Char) (s : List Char) : List Char :=
  ((s.dropWhile (cs.contains ·)).reverse.dropWhile (cs.contains ·)).reverse

/-- Python `str.replace(pat, rep)` (leftmost, non-overlapping), on fuel — one
unit of fuel per consumed character, so `s.length` fuel is exact. -/
def pyReplaceAux (pat rep : List Char) : ℕ → List Char → List Char
  | 0, s => s
  | fuel + 1, s =>
      match s with
      | [] => []
      | c :: cs =>
          match dropPrefixCL pat s with
          | some rest => rep ++ pyReplaceAux pat rep fuel rest
          | none => c :: pyReplaceAux pat rep fuel cs

/-- Python `str.replace(pat, rep)` for a non-empty pattern. -/
def pyReplace (s pat rep : List Char) : List Char :=
  if pat.isEmpty then s else pyReplaceAux pat rep s.length s

/-- The `while text and (text.startswith(...) or text.endswith(...))` loop of
`sanitize_text`; each true iteration strips at least one character, so
`s.length` fuel reproduces the loop exactly. -/
def sanitizeQuoteLoop : ℕ → List Char → List Char
  | 0, s => s
  | fuel + 1, s =>
      if !s.isEmpty &&
          ((match s.head? with | some c => quoteChars.contains c | none => false) ||
           (match s.getLast? with | some c => quoteChars.contains c | none => false)) then
        sanitizeQuoteLoop fuel (pyStripSet stripQuoteSet s)
      else s

/-- `sanitize_text` from `services/llm.py` (lines 32-45). -/
def sanitize_text (text : String) : String :=
  if text.isEmpty then ""
  else
    let t := pyStrip text.toList
    let t := pyReplace t [backslashChar, '"'] ['"']
    let t := pyReplace t [backslashChar, aposChar] [aposChar]
    let t := sanitizeQuoteLoop t.length t
    String.mk (pyStrip t)

/-- Python `str.title()` on the letters these tags use: a letter directly
after a letter is lowered, a letter after a non-letter (or at the start) is
uppercased. -/
def pyTitleAux : Bool → List Char → List Char
  | _, [] => []
  | prevCased, c :: cs =>
      if c.isAlpha then (if prevCased then c.toLower else c.toUpper) :: pyTitleAux true cs
      else c :: pyTitleAux false cs

/-- Python `str.title()`. -/
def pyTitle (s : List Char) : List Char := pyTitleAux false s

/-- `ALLOWED_TAGS` from `app/schemas.py` (a Python set; listed here in source
order). -/
def ALLOWED_TAGS : List String :=
  ["Fast-Paced", "Slow-Burn", "Action-Packed", "Cerebral",
   "Feel-Good", "Dark", "Gritty", "Whimsical", "Funny",
   "Gory", "Violent", "Sexy", "Family-Friendly",
   "Mind-Bending", "Dialogue-Heavy", "Visual-Masterpiece"]

/-- The `validate_tags` field validator of `LLMReviewOutput`
(`app/schemas.py` lines 109-118): strip/title-case/dash-join each tag, keep
only members of the closed vocabulary, cap at 5. -/
def validate_tags (tags : List String) : List String :=
  ((tags.map fun tag =>
      String.mk (pyReplace (pyTitle (pyStrip tag.toList)) [' '] ['-'])).filter
    (fun t => ALLOWED_TAGS.contains t)).take 5

/-- `tag.lower().replace("-", "")` — the collapsed form used by the
concatenated-tag splitter. -/
def collapseTag (s : List Char) : List Char := (lowerList s).filter (· ≠ '-')

/-- Python `str.find` (leftmost index of `pat`, `none` when absent). -/
def listFindIdx (pat : List Char) : List Char → Option ℕ
  | [] => if listPrefixOf pat [] then some 0 else none
  | c :: cs =>
      if listPrefixOf pat (c :: cs) then some 0
      else (listFindIdx pat cs).map (· + 1)

/-- `sorted(ALLOWED_TAGS, key=len, reverse=True)` — Python set iteration
order is unspecified, so ties in length are in an arbitrary (here: source)
order. -/
def allowedTagsByLenDesc : List String :=
  ["Visual-Masterpiece", "Family-Friendly", "Dialogue-Heavy", "Action-Packed",
   "Mind-Bending", "Fast-Paced", "Slow-Burn", "Feel-Good", "Whimsical",
   "Cerebral", "Violent", "Gritty", "Funny", "Gory", "Dark", "Sexy"]

/-- The `while allowed... in remaining...` inner loop of the concatenated-tag
fix (`services/llm.py` lines 397-401): repeatedly emit `allowed` and cut
`len(allowed.replace("-",""))` characters out of `remaining` at the index
found in the *collapsed* string (the source's index/slice mismatch is kept).
Each true iteration removes at least one character, so `remaining.length`
fuel reproduces the loop. -/
def fixOneAllowed (a : String) : ℕ → List Char → List String × List Char
  | 0, remaining => ([], remaining)
  | fuel + 1, remaining =>
      let ac := collapseTag a.toList
      if listInfixOf ac (collapseTag remaining) then
        let idx := (listFindIdx ac (collapseTag remaining)).getD 0
        let newRem := remaining.take idx ++
          remaining.drop (idx + (a.toList.filter (· ≠ '-')).length)
        let r := fixOneAllowed a fuel newRem
        (a :: r.1, r.2)
      else ([], remaining)

/-- One tag's treatment in the tag-fix loop (lines 392-403): implausibly long
tags (> 20 chars) are split back into canonical tags, others pass through. -/
def fixTagEntry (tag : String) : List String :=
  if tag.toList.length > 20 then
    (allowedTagsByLenDesc.foldl
      (fun (acc : List String × List Char) a =>
        let r := fixOneAllowed a (acc.2.length + 1) acc.2
        (acc.1 ++ r.1, r.2))
      ([], tag.toList)).1
  else [tag]

/-- The whole tag-fix step (lines 390-405): `fixed_tags` replaces the tag
list only when non-empty. -/
def fixTags (tags : List String) : List String :=
  let fixed := (tags.map fixTagEntry).flatten
  if fixed.isEmpty then tags else fixed

/-- The typed content of a successfully `json.loads`-ed provider response;
a field absent from the JSON object is `none`.  (`hook`, `critic_sentiment`
and `reddit_sentiment` are dropped by pydantic, see `LLMReviewOutput`.) -/
structure RawLLMData where
  review_text : Option String := none
  verdict : Option String := none
  praise_points : Option (List String) := none
  criticism_points : Option (List String) := none
  vibe : Option String := none
  confidence : Option String := none
  tags : Option (List String) := none
  best_quote : Option String := none
  quote_source : Option String := none
  positive_pct : Option ℤ := none
  negative_pct : Option ℤ := none
  mixed_pct : Option ℤ := none
  deriving Repr, DecidableEq

/-- The `if key in data:` sanitation steps of `synthesize_review`
(lines 380-405) applied to the parsed dict. -/
def sanitizeRawData (d : RawLLMData) : RawLLMData :=
  { d with
    review_text := d.review_text.map sanitize_text
    best_quote := d.best_quote.map sanitize_text
    praise_points := d.praise_points.map (·.map sanitize_text)
    criticism_points := d.criticism_points.map (·.map sanitize_text)
    tags := d.tags.map fixTags }

/-- `LLMReviewOutput(**data)`: pydantic validation of the (sanitized) dict.
`review_text` and `verdict` are required, `verdict` and `confidence` must
match their regex patterns, `tags` runs through `validate_tags`, everything
else defaults; the sentiment triple is passed through with no constraint.
`none` is the `ValidationError` case. -/
def validateLLMOutput (d : RawLLMData) : Option LLMReviewOutput :=
  match d.review_text, d.verdict with
  | some rt, some v =>
      if v = "WORTH IT" ∨ v = "NOT WORTH IT" ∨ v = "MIXED BAG" then
        let conf := d.confidence.getD "MEDIUM"
        if conf = "HIGH" ∨ conf = "MEDIUM" ∨ conf = "LOW" then
          some { review_text := rt, verdict := v,
                 praise_points := d.praise_points.getD [],
                 criticism_points := d.criticism_points.getD [],
                 vibe := d.vibe.getD "",
                 confidence := conf,
                 tags := validate_tags (d.tags.getD []),
                 best_quote := d.best_quote.getD "",
                 quote_source := d.quote_source.getD "",
                 positive_pct := d.positive_pct,
                 negative_pct := d.negative_pct,
                 mixed_pct := d.mixed_pct }
        else none
      else none
  | _, _ => none

/-- The static JSON-failure fallback of `synthesize_review` (lines 408-420). -/
def parseFailOutput (content : String) : LLMReviewOutput :=
  { review_text := sanitize_text content, verdict := "MIXED BAG",
    praise_points := [], criticism_points := [],
    vibe := "Unable to determine", confidence := "LOW" }

/-- The static degraded-service result of tier 3 (lines 361-373). -/
def degradedServiceOutput : LLMReviewOutput :=
  { review_text :=
      "We are having trouble reaching our AI critics right now. Please try again in a moment.",
    verdict := "MIXED BAG", praise_points := [], criticism_points := [],
    vibe := "System Error", confidence := "LOW" }

/-- Which client a call goes to. -/
inductive LLMProvider where
  | primary
  | secondary
  | knowledge
  deriving Repr, DecidableEq

/-- Which prompt a call carries: the search-data user prompt (identical for
tiers 1 and 2) or the internal-knowledge variant. -/
inductive LLMPromptKind where
  | userPrompt
  | knowledgePrompt
  deriving Repr, DecidableEq

/-- One `_call_llm` invocation. -/
structure LLMCall where
  provider : LLMProvider
  prompt : LLMPromptKind
  deriving Repr, DecidableEq

/-- The environment of one `synthesize_review` run: each provider call's
outcome (`none` = the call raised: timeout, provider error, …), whether a
distinct fallback client is configured, and the `json.loads` oracle
(`none` = `JSONDecodeError`). -/
structure LLMWorld where
  primaryResult : Option String
  secondaryResult : Option String
  knowledgeResult : Option String
  hasFallbackClient : Bool
  parseJSON : String → Option RawLLMData

/-- The parse-and-repair tail of `synthesize_review` (lines 377-420). -/
def parseLLMContent (parse : String → Option RawLLMData) (content : String) :
    LLMReviewOutput :=
  match parse content with
  | some data =>
      match validateLLMOutput (sanitizeRawData data) with
      | some out => out
      | none => parseFailOutput content
  | none => parseFailOutput content

/-- `synthesize_review` control flow (lines 302-420) with its call trace:
tier 1 calls the primary client and, on failure, the fallback client once
with the *same* prompt; tier 2 issues the knowledge prompt; tier 3 is the
static degraded result.  Every path returns an output — no exception leaves
the function. -/
def synthesize_review (w : LLMWorld) : LLMReviewOutput × List LLMCall :=
  let tier1 : Option String × List LLMCall :=
    match w.primaryResult with
    | some c => (some c, [⟨.primary, .userPrompt⟩])
    | none =>
        if w.hasFallbackClient then
          (w.secondaryResult, [⟨.primary, .userPrompt⟩, ⟨.secondary, .userPrompt⟩])
        else (none, [⟨.primary, .userPrompt⟩])
  match tier1.1 with
  | some c => (parseLLMContent w.parseJSON c, tier1.2)
  | none =>
      match w.knowledgeResult with
      | some c =>
          (parseLLMContent w.parseJSON c, tier1.2 ++ [⟨.knowledge, .knowledgePrompt⟩])
      | none => (degradedServiceOutput, tier1.2 ++ [⟨.knowledge, .knowledgePrompt⟩])

/-! ## Synthesizer input cap and corpus assembly
(`services/llm.py` lines 16, 231-234; `services/pipeline.py` lines 605-648) -/

/-- `MAX_OPINIONS_CHARS` (`services/llm.py` line 16). -/
def MAX_OPINIONS_CHARS : ℕ := 10000

/-- The opinions string actually interpolated into the user prompt
(lines 231-234): truncated to the first `MAX_OPINIONS_CHARS` characters when
longer. -/
def opinionsForPrompt (opinions : String) : String :=
  if opinions.length > MAX_OPINIONS_CHARS then
    String.mk (opinions.toList.take MAX_OPINIONS_CHARS)
  else opinions

/-- `MAX_LLM_CHARS` (`services/pipeline.py` line 610). -/
def MAX_LLM_CHARS : ℕ := 15000

/-- Lines 613-615: the joined Reddit snippet block. -/
def redditTextOf (reddit_snippets : List String) : String :=
  if reddit_snippets.isEmpty then "" else String.intercalate "\n\n" reddit_snippets

/-- Lines 618-624: the character budget left for critic text, reserving at
most 5,000 characters for Reddit. -/
def criticLimitOf (reddit_text : String) : ℕ :=
  if reddit_text.isEmpty then MAX_LLM_CHARS
  else MAX_LLM_CHARS - min reddit_text.length 5000

/-- Python `str.rfind(c)`: index of the last occurrence. -/
def listRfindAux (c : Char) : List Char → Option ℕ
  | [] => none
  | x :: xs =>
      match listRfindAux c xs with
      | some i => some (i + 1)
      | none => if x = c then some 0 else none

/-- Lines 627-633: truncate the critic text to the budget, then cut back to
the last period when one exists at a positive index. -/
def truncateCritic (critic_text : String) (limit : ℕ) : String :=
  if critic_text.length > limit then
    let t := critic_text.toList.take limit
    match listRfindAux '.' t with
    | some p => if p > 0 then String.mk (t.take (p + 1)) else String.mk t
    | none => String.mk t
  else critic_text

/-- The opening line of the audience block (line 637). -/
def audienceHeader : String := "AUDIENCE REACTIONS (from Reddit/Forums):\n"

/-- The opening line of the critic block (lines 640, 643). -/
def criticHeader : String := "CRITICAL CONTEXT (Professional Reviews):\n"

/-- Lines 635-646: the final opinions corpus — Reddit first, then the
truncated critic text. -/
def assembleFinalOpinions (reddit_snippets : List String) (filtered_opinions : String) :
    String :=
  let reddit_text := redditTextOf reddit_snippets
  let critic_text := truncateCritic filtered_opinions (criticLimitOf reddit_text)
  if !reddit_text.isEmpty then
    audienceHeader ++ reddit_text ++ "\n\n" ++ criticHeader ++ critic_text
  else
    criticHeader ++ critic_text

/-! # Theorems -/

/-- C4.  Confidence example and tier map: 9 articles read, 4 reddit.com
source URLs, 16,000 filtered-opinion characters and a release 400 days in
the past score 25+30+25+20 = 100 and tier HIGH; and for every input the
returned tier is HIGH when the returned score is ≥ 70, MEDIUM when ≥ 40,
LOW otherwise. -/
theorem calculate_confidence_example_and_tier_map :
    ((calculate_confidence 9
        ["https://www.reddit.com/r/movies/1", "https://old.reddit.com/r/television/2",
         "https://www.reddit.com/r/horror/3", "https://reddit.com/r/flicks/4",
         "https://collider.com/review", "https://www.theguardian.com/film/rev",
         "https://screenrant.com/rev", "https://variety.com/rev",
         "https://www.ign.com/rev"]
        16000 (some 400)).confidenceScore = 100
      ∧ (calculate_confidence 9
          ["https://www.reddit.com/r/movies/1", "https://old.reddit.com/r/television/2",
           "https://www.reddit.com/r/horror/3", "https://reddit.com/r/flicks/4",
           "https://collider.com/review", "https://www.theguardian.com/film/rev",
           "https://screenrant.com/rev", "https://variety.com/rev",
           "https://www.ign.com/rev"]
          16000 (some 400)).confidenceTier = "HIGH")
    ∧ ∀ (a : ℤ) (urls : List String) (c : ℤ) (d : Option ℤ),
        (calculate_confidence a urls c d).confidenceTier =
          (if (calculate_confidence a urls c d).confidenceScore ≥ 70 then "HIGH"
           else if (calculate_confidence a urls c d).confidenceScore ≥ 40 then "MEDIUM"
           else "LOW") := by
  refine ⟨⟨by decide, by decide⟩, ?_⟩
  intro a urls c d
  simp only [calculate_confidence]

/-- C6, counterexample.  The title-relevance filter that is actually applied
to the merged search results (`select_best_sources`) treats "short" as at
most 3 *characters* and uses a bare word-boundary search with **no**
conjunction rejection: searching "Up" accepts both "Up in the Air" and
"Cover Up discussion", contradicting the claim. -/
theorem shortTitle_matcher_counterexample :
    titleRelevanceMatch "Up" "Up in the Air" "" "" = true ∧
    titleRelevanceMatch "Up" "Cover Up discussion" "" "" = true ∧
    titleRelevanceMatch "Up" "Up (2009) review" "" "" = true := by decide

/-- C6, amended.  The conjunction-rejecting short-title matcher is the
Guardian headline post-filter `_title_matches` (titles of ≤ 3 *words*,
headline only).  With the release year supplied, "Up" matches
"Up (2009) review" and matches neither "Up in the Air" nor
"Cover Up discussion"; with an empty year the single-word super-strict
pattern degenerates (its `\s*YEAR` alternative becomes `\s*`), so
"Up in the Air" is still rejected through the conjunction check but
"Cover Up discussion" is accepted.  The merged-results filter in
`select_best_sources` has no conjunction logic (see the counterexample). -/
theorem title_matches_amended :
    title_matches "Up" "Up (2009) review" "" "2009" = true ∧
    title_matches "Up" "Up in the Air" "" "2009" = false ∧
    title_matches "Up" "Cover Up discussion" "" "2009" = false ∧
    title_matches "Up" "Up in the Air" "" "" = false ∧
    title_matches "Up" "Cover Up discussion" "" "" = true := by decide

/-- C5, counterexample.  The claim's TTL table says a title released more
than 90 days ago is never stale; but `calculate_review_ttl_hours` returns
720 hours for that bucket, so a title released 200 days ago with a review
generated 1,000 hours ago *is* stale. -/
theorem freshness_never_stale_counterexample :
    ((200:ℤ) > 90) ∧ calculate_review_ttl_hours (some 200) = 720 ∧
    is_review_fresh (some 1000) (some 200) = false := by
  refine ⟨by norm_num, by decide, ?_⟩
  simp only [is_review_fresh, calculate_review_ttl_hours]
  norm_num

/-- C5, amended.  TTL table of `calculate_review_ttl_hours`:
upcoming → 6h, 0-7 days → 12h, 8-30 → 48h, 31-90 → 168h, and for > 90 days
the TTL is 720 hours (30 days) — not "never stale": a review older than
720 hours counts stale.  The never-regenerate behaviour for old titles lives
in `smart_refresh` instead, which skips every title released more than 90
days ago regardless of review age. -/
theorem freshness_ttl_amended :
    (∀ d : ℤ, d < 0 → calculate_review_ttl_hours (some d) = 6)
    ∧ (∀ d : ℤ, 0 ≤ d → d ≤ 7 → calculate_review_ttl_hours (some d) = 12)
    ∧ (∀ d : ℤ, 8 ≤ d → d ≤ 30 → calculate_review_ttl_hours (some d) = 48)
    ∧ (∀ d : ℤ, 31 ≤ d → d ≤ 90 → calculate_review_ttl_hours (some d) = 168)
    ∧ (∀ d : ℤ, 90 < d →
        calculate_review_ttl_hours (some d) = 720
        ∧ (∀ age : ℚ, 720 ≤ age → is_review_fresh (some age) (some d) = false)
        ∧ (∀ age : ℚ, 90 ≤ d → smart_refresh_needs_refresh d age = false)) := by
  refine ⟨?_, ?_, ?_, ?_, ?_⟩
  · intro d hd; simp [calculate_review_ttl_hours, hd]
  · intro d hd0 hd7
    simp [calculate_review_ttl_hours]
    omega
  · intro d hd8 hd30
    simp only [calculate_review_ttl_hours]
    rw [if_neg (by omega), if_neg (by omega), if_pos (by omega)]
  · intro d hd31 hd90
    simp only [calculate_review_ttl_hours]
    rw [if_neg (by omega), if_neg (by omega), if_neg (by omega), if_pos (by omega)]
  · intro d hd
    have httl : calculate_review_ttl_hours (some d) = 720 := by
      simp only [calculate_review_ttl_hours]
      rw [if_neg (by omega), if_neg (by omega), if_neg (by omega), if_neg (by omega)]
    refine ⟨httl, ?_, ?_⟩
    · intro age hage
      simp only [is_review_fresh, httl]
      rw [decide_eq_false (by push_cast; linarith : ¬ age < ((720:ℤ) : ℚ))]
    · intro age _
      simp only [smart_refresh_needs_refresh]
      rw [if_neg (by omega), if_neg (by omega), if_neg (by omega)]

/-- C5, witness: release 200 days ago, review 800 hours old — TTL 720,
stale, and never selected by `smart_refresh`. -/
theorem freshness_ttl_amended_witness :
    calculate_review_ttl_hours (some 200) = 720
    ∧ is_review_fresh (some 800) (some 200) = false
    ∧ smart_refresh_needs_refresh 200 800 = false :=
  ⟨(freshness_ttl_amended.2.2.2.2 200 (by norm_num)).1,
   (freshness_ttl_amended.2.2.2.2 200 (by norm_num)).2.1 800 (by norm_num),
   (freshness_ttl_amended.2.2.2.2 200 (by norm_num)).2.2 800 (by norm_num)⟩

/-- C1, counterexample.  The hard-floor rule as claimed ("whenever the
resolved override score is below 5.0 and its vote count is above 200 and the
verdict is WORTH IT or MIXED BAG, the final verdict is forced to NOT WORTH
IT") fails on the code: with no IMDb data and a TMDB average of 0.0 the
resolved override score is 0.0 < 5.0 and the vote count 5000 > 200, yet the
guard `override_score and override_score < 5.0` is falsy for 0.0, so a
WORTH IT verdict survives. -/
theorem hardFloor_zero_score_counterexample :
    resolveOverrideScore none (some 0) = some 0 ∧ ((0:ℚ) < 5) ∧
    resolveOverrideVotes none (some 5000) = 5000 ∧ ((5000:ℤ) > 200) ∧
    (applyVerdictOverrides
        { review_text := "r", verdict := "WORTH IT",
          positive_pct := some 50, negative_pct := some 30 }
        none none (some 0) (some 5000) "HIGH" 9).map (·.verdict)
      = .ok "WORTH IT" := by
  refine ⟨rfl, by norm_num, rfl, by norm_num, ?_⟩
  norm_num [applyVerdictOverrides, resolveOverrideScore, resolveOverrideVotes,
    scoreAbove, scoreBelow, scoreBetween, votesAbove, pctTruthyBelow,
    pctTruthyAtLeast, Except.map]

/-- C1, amended.  Hard floor of the verdict policy engine: whenever both
sentiment percentages are present (otherwise the rule chain raises, see
`applyVerdictOverrides`), the resolved override score is *nonzero* and below
5.0, and the resolved vote count is above 200, the final verdict is
NOT WORTH IT for every enumerated incoming verdict and all sentiment
values. -/
theorem hardFloor_amended (out : LLMReviewOutput)
    (imdb_score : Option ℚ) (imdb_votes : Option ℤ)
    (tmdb_vote_average : Option ℚ) (tmdb_vote_count : Option ℤ)
    (tier : String) (articles : ℤ) (pos neg : ℤ) (s : ℚ)
    (hpos : out.positive_pct = some pos) (hneg : out.negative_pct = some neg)
    (hs : resolveOverrideScore imdb_score tmdb_vote_average = some s)
    (hs0 : s ≠ 0) (hs5 : s < 5)
    (hv : resolveOverrideVotes imdb_votes tmdb_vote_count > 200)
    (hverdict : out.verdict = "WORTH IT" ∨ out.verdict = "NOT WORTH IT" ∨
      out.verdict = "MIXED BAG") :
    (applyVerdictOverrides out imdb_score imdb_votes tmdb_vote_average tmdb_vote_count
        tier articles).map (·.verdict) = .ok "NOT WORTH IT" := by
  have hvt : resolveOverrideVotes imdb_votes tmdb_vote_count ≠ 0 := by omega
  have h100 : votesAbove (resolveOverrideVotes imdb_votes tmdb_vote_count) 100 = true := by
    simp [votesAbove, hvt]; omega
  have h200 : votesAbove (resolveOverrideVotes imdb_votes tmdb_vote_count) 200 = true := by
    simp [votesAbove, hvt]; omega
  have hA : scoreAbove (some s) 7.5 = false := by
    simp only [scoreAbove]
    rw [decide_eq_false (by intro h; norm_num at h; linarith : ¬ s > 7.5)]
    simp
  have hB5 : scoreBelow (some s) 5 = true := by
    simp [scoreBelow, hs0, hs5]
  have hB6 : scoreBelow (some s) 6 = true := by
    simp [scoreBelow, hs0]; linarith
  have hBet : scoreBetween (some s) 5 6 = false := by
    simp only [scoreBetween]
    rw [decide_eq_false (by intro h; linarith : ¬ (5:ℚ) ≤ s)]
    simp
  simp only [applyVerdictOverrides, hpos, hneg, hs, h100, h200, hA, hB5, hB6, hBet,
    Bool.false_and, Bool.and_false, Bool.true_and, Bool.and_true, if_false, if_true,
    Bool.false_eq_true, reduceIte]
  rcases hverdict with h | h | h <;>
    by_cases hp : (60:ℤ) < pos <;>
    by_cases hq : pctTruthyAtLeast (some pos) 80 = true <;>
    simp [h, hp, hq, Except.map]

/-- C1, witness: the claim's example B — override score 4.2 with 5,000 votes
and LLM verdict WORTH IT yields final verdict NOT WORTH IT. -/
theorem hardFloor_amended_witness :
    (applyVerdictOverrides
        { review_text := "r", verdict := "WORTH IT",
          positive_pct := some 50, negative_pct := some 30 }
        (some 4.2) (some 5000) none none "HIGH" 9).map (·.verdict)
      = .ok "NOT WORTH IT" :=
  hardFloor_amended _ _ _ _ _ _ _ 50 30 4.2 rfl rfl
    (by norm_num [resolveOverrideScore]) (by norm_num) (by norm_num)
    (by norm_num [resolveOverrideVotes]) (Or.inl rfl)

/-- C2, counterexample.  The claim says a positive sentiment below 45% alone
blocks the high-score promotion; but the guard is
`llm_output.positive_pct and llm_output.positive_pct < 45`, which is falsy
for `positive_pct = 0`, so with override score 8.0, 1,000 votes, verdict
MIXED BAG and positive sentiment 0% (< 45%) the promotion to WORTH IT still
happens. -/
theorem highScorePromotion_zero_pct_counterexample :
    ((0:ℤ) < 45) ∧
    resolveOverrideScore (some 8) none = some 8 ∧ ((8:ℚ) > 7.5) ∧
    resolveOverrideVotes (some 1000) none = 1000 ∧ ((1000:ℤ) > 500) ∧
    (applyVerdictOverrides
        { review_text := "r", verdict := "MIXED BAG",
          positive_pct := some 0, negative_pct := some 100 }
        (some 8) (some 1000) none none "HIGH" 9).map (·.verdict)
      = .ok "WORTH IT" := by
  refine ⟨by norm_num, by norm_num [resolveOverrideScore], by norm_num,
    by norm_num [resolveOverrideVotes], by norm_num, ?_⟩
  norm_num [applyVerdictOverrides, resolveOverrideScore, resolveOverrideVotes,
    scoreAbove, scoreBelow, scoreBetween, votesAbove, pctTruthyBelow,
    pctTruthyAtLeast, Except.map]

/-- C2, amended.  High-score promotion: whenever both sentiment percentages
are present, the resolved override score exceeds 7.5 with more than 500
resolved votes and the verdict is not WORTH IT, the verdict is promoted to
WORTH IT unless the criticism-point count exceeds the praise-point count or
the positive sentiment is *nonzero* and below 45% (zero positive sentiment
does not block, because the guard is Python-truthy); the promotion survives
the later rules provided the low-confidence demotion (LOW tier with fewer
than 3 articles) does not apply. -/
theorem highScorePromotion_amended (out : LLMReviewOutput)
    (imdb_score : Option ℚ) (imdb_votes : Option ℤ)
    (tmdb_vote_average : Option ℚ) (tmdb_vote_count : Option ℤ)
    (tier : String) (articles : ℤ) (pos neg : ℤ) (s : ℚ)
    (hpos : out.positive_pct = some pos) (hneg : out.negative_pct = some neg)
    (hs : resolveOverrideScore imdb_score tmdb_vote_average = some s)
    (hs75 : s > 7.5)
    (hv : resolveOverrideVotes imdb_votes tmdb_vote_count > 500)
    (hvne : out.verdict ≠ "WORTH IT")
    (hcrit : ¬ ((out.criticism_points.length : ℤ) > (out.praise_points.length : ℤ)))
    (hblock : ¬ (pos ≠ 0 ∧ pos < 45))
    (htier : ¬ (tier = "LOW" ∧ articles < 3)) :
    (applyVerdictOverrides out imdb_score imdb_votes tmdb_vote_average tmdb_vote_count
        tier articles).map (·.verdict) = .ok "WORTH IT" := by
  have hs0 : s ≠ 0 := by intro h; rw [h] at hs75; norm_num at hs75
  have hvt : resolveOverrideVotes imdb_votes tmdb_vote_count ≠ 0 := by omega
  have h500 : votesAbove (resolveOverrideVotes imdb_votes tmdb_vote_count) 500 = true := by
    simp [votesAbove, hvt]; omega
  have hA : scoreAbove (some s) 7.5 = true := by
    simp [scoreAbove, hs0]; exact hs75
  have hB5 : scoreBelow (some s) 5 = false := by
    simp only [scoreBelow]
    rw [decide_eq_false (by intro h; norm_num at hs75; linarith : ¬ s < 5)]
    simp
  have hB6 : scoreBelow (some s) 6 = false := by
    simp only [scoreBelow]
    rw [decide_eq_false (by intro h; norm_num at hs75; linarith : ¬ s < 6)]
    simp
  have hBet : scoreBetween (some s) 5 6 = false := by
    simp only [scoreBetween]
    rw [decide_eq_false (by intro h; norm_num at hs75; linarith : ¬ s < 6)]
    simp
  have hPB : pctTruthyBelow (some pos) 45 = false := by
    simp only [pctTruthyBelow]
    by_cases h0 : pos = 0
    · simp [h0]
    · rw [decide_eq_false (by intro h; exact hblock ⟨h0, h⟩ : ¬ pos < 45)]; simp
  simp only [applyVerdictOverrides, hpos, hneg, hs, hA, hB5, hB6, hBet, h500, hPB,
    Bool.false_and, Bool.and_false, Bool.true_and, Bool.and_true, reduceIte]
  have hbeq : (out.verdict == "WORTH IT") = false := by simp [hvne]
  by_cases htL : tier = "LOW"
  · have ha : ¬ articles < 3 := fun h => htier ⟨htL, h⟩
    simp [hbeq, hcrit, htL, ha, Except.map]
  · simp [hbeq, hcrit, htL, Except.map]

/-- C2, witness: the claim's example A — override score 8.6 with 12,000
votes, LLM verdict MIXED BAG, 3 praise points, 1 criticism point and 50%
positive sentiment yields final verdict WORTH IT. -/
theorem highScorePromotion_amended_witness :
    (applyVerdictOverrides
        { review_text := "r", verdict := "MIXED BAG",
          praise_points := ["a", "b", "c"], criticism_points := ["d"],
          positive_pct := some 50, negative_pct := some 30 }
        (some 8.6) (some 12000) none none "HIGH" 9).map (·.verdict)
      = .ok "WORTH IT" :=
  highScorePromotion_amended _ _ _ _ _ _ _ 50 30 8.6 rfl rfl
    (by norm_num [resolveOverrideScore]) (by norm_num)
    (by norm_num [resolveOverrideVotes]) (by decide) (by decide)
    (by omega) (by simp)


theorem cacheLoop_blocked (cache : ℕ → CacheOutcome) :
    ∀ is : List ℕ, cacheLoop cache true is
      = (true, is.map (fun i => (i, none)), is.map RedditEvent.cacheSkip)
  | [] => by simp [cacheLoop]
  | i :: is => by simp [cacheLoop, cacheLoop_blocked cache is]

theorem cacheLoop_no_direct (cache : ℕ → CacheOutcome) :
    ∀ (is : List ℕ) (blocked : Bool),
      ∀ e ∈ (cacheLoop cache blocked is).2.2, e.isDirect = false
  | [], blocked => by simp [cacheLoop]
  | i :: is, blocked => by
      intro e he
      by_cases hb : blocked = true
      · subst hb
        simp only [cacheLoop, if_true] at he
        rcases List.mem_cons.mp he with h | h
        · subst h; rfl
        · exact cacheLoop_no_direct cache is true e h
      · simp only [cacheLoop, if_neg hb] at he
        rcases List.mem_cons.mp he with h | h
        · subst h; rfl
        · exact cacheLoop_no_direct cache is _ e h

theorem cacheLoop_one_event_per_url (cache : ℕ → CacheOutcome) :
    ∀ (is : List ℕ) (blocked : Bool),
      List.Forall₂ (fun i e => e = RedditEvent.cacheFetch i ∨ e = RedditEvent.cacheSkip i)
        is (cacheLoop cache blocked is).2.2
  | [], blocked => by simp [cacheLoop]
  | i :: is, blocked => by
      by_cases hb : blocked = true
      · subst hb
        simp only [cacheLoop, if_true]
        exact List.Forall₂.cons (Or.inr rfl) (cacheLoop_one_event_per_url cache is true)
      · simp only [cacheLoop, if_neg hb]
        exact List.Forall₂.cons (Or.inl rfl) (cacheLoop_one_event_per_url cache is _)

theorem cacheLoop_rateLimit_suffix (cache : ℕ → CacheOutcome) :
    ∀ (is : List ℕ) (blocked : Bool) (k : ℕ) (i : ℕ),
      (cacheLoop cache blocked is).2.2[k]? = some (RedditEvent.cacheFetch i) →
      cache i = .rateLimited →
      (cacheLoop cache blocked is).2.2.drop (k+1) = (is.drop (k+1)).map RedditEvent.cacheSkip
  | [], blocked, k, i => by simp [cacheLoop]
  | i0 :: is, blocked, k, i => by
      intro hk hrl
      by_cases hb : blocked = true
      · subst hb
        rw [cacheLoop_blocked] at hk ⊢
        simp only [List.getElem?_map] at hk
        rcases h : ((i0 :: is)[k]?) with _ | u <;> rw [h] at hk <;> simp at hk
      · simp only [cacheLoop, if_neg hb] at hk ⊢
        match k with
        | 0 =>
            simp only [List.getElem?_cons_zero, Option.some_inj] at hk
            have hi : i0 = i := by injection hk
            subst hi
            rw [hrl]
            show (cacheLoop cache (fetch_google_cache blocked CacheOutcome.rateLimited).1
              is).2.2.drop 0 = is.map RedditEvent.cacheSkip
            simp only [fetch_google_cache]
            rw [cacheLoop_blocked]
            simp
        | k+1 =>
            simp only [List.getElem?_cons_succ] at hk
            simp only [List.drop_succ_cons]
            exact cacheLoop_rateLimit_suffix cache is _ (k) i hk hrl

/-- C7.  Community-fetch fallback state machine: when the single test URL
fails, the batch performs no further direct community fetch (the only
direct-fetch event is the test itself), every remaining URL produces exactly
one cache event (a fetch or, once the blocked flag is set, a skip) in order,
and after any cache fetch that comes back rate-limited every remaining URL
of the batch is skipped rather than retried. -/
theorem reddit_fallback_state_machine (direct : ℕ → Option String) (cache : ℕ → CacheOutcome)
    (t : ℕ) (rest : List ℕ) (htest : direct t = none) :
    (read_reddit_urls direct cache (t :: rest)).events
        = .directFetch t :: (cacheLoop cache false rest).2.2
    ∧ (∀ e ∈ (read_reddit_urls direct cache (t :: rest)).events,
        e.isDirect = true → e = .directFetch t)
    ∧ List.Forall₂ (fun i e => e = RedditEvent.cacheFetch i ∨ e = RedditEvent.cacheSkip i)
        rest (cacheLoop cache false rest).2.2
    ∧ (∀ k i, (cacheLoop cache false rest).2.2[k]? = some (RedditEvent.cacheFetch i) →
        cache i = .rateLimited →
        (cacheLoop cache false rest).2.2.drop (k+1) = (rest.drop (k+1)).map RedditEvent.cacheSkip) := by
  have hev : (read_reddit_urls direct cache (t :: rest)).events
      = .directFetch t :: (cacheLoop cache false rest).2.2 := by
    simp only [read_reddit_urls, htest]
  refine ⟨hev, ?_, cacheLoop_one_event_per_url cache rest false,
    fun k i => cacheLoop_rateLimit_suffix cache rest false k i⟩
  intro e he hd
  rw [hev] at he
  rcases List.mem_cons.mp he with h | h
  · exact h
  · have := cacheLoop_no_direct cache rest false e h
    rw [hd] at this
    exact absurd this (by simp)

/-- C7, witness: a batch of four URLs whose test URL fails and whose first
cache lookup is rate-limited: one direct fetch, one cache fetch, the rest
skipped. -/
theorem reddit_fallback_state_machine_witness :
    ((read_reddit_urls (fun _ => none)
        (fun i => if i = 1 then .rateLimited else .content "x") [0, 1, 2, 3]).events
      = [.directFetch 0, .cacheFetch 1, .cacheSkip 2, .cacheSkip 3])
    ∧ (cacheLoop (fun i => if i = 1 then .rateLimited else .content "x")
        false [1, 2, 3]).2.2.drop 1
      = [RedditEvent.cacheSkip 2, RedditEvent.cacheSkip 3] := by
  have h := reddit_fallback_state_machine (fun _ => none)
    (fun i => if i = 1 then .rateLimited else .content "x") 0 [1, 2, 3] rfl
  exact ⟨by rw [h.1]; rfl, (h.2.2.2 0 1 rfl rfl).trans rfl⟩


/-- C8.  Search fan-out: (arity) the pipeline's serper call sites pass four
positional arguments against `search_reviews(self, title, year="",
media_type="movie")`, which cannot bind — building the very first coroutine
raises `TypeError` inside the `try`, so in the source as given *no* branch
runs and every run falls into the zero-results fallback; (isolation) the
gather-unpacking logic itself, had the call bound, treats each errored branch
as empty and merges the survivors: replacing any one branch with an error
equals replacing it with an empty result, the all-ok merge is the
concatenation of all five branches, a surviving branch's list always appears
intact in the merged list, and an errored trusted-rating branch becomes
`None`. -/
theorem searchFanout_arity_and_isolation :
    (¬ pyCallBinds serper_search_required serper_search_optional pipeline_serper_call_args)
    ∧ (∀ (r1 r2 : Except Unit (List SearchResultR)) (r3 : Except Unit (List GuardianArticleR))
        (r4 : Except Unit (List NYTReviewR)),
        unpackSearchGather (.error ()) r1 r2 r3 r4 = unpackSearchGather (.ok []) r1 r2 r3 r4)
    ∧ (∀ (r0 r2 : Except Unit (List SearchResultR)) (r3 : Except Unit (List GuardianArticleR))
        (r4 : Except Unit (List NYTReviewR)),
        unpackSearchGather r0 (.error ()) r2 r3 r4 = unpackSearchGather r0 (.ok []) r2 r3 r4)
    ∧ (∀ (r0 r1 : Except Unit (List SearchResultR)) (r3 : Except Unit (List GuardianArticleR))
        (r4 : Except Unit (List NYTReviewR)),
        unpackSearchGather r0 r1 (.error ()) r3 r4 = unpackSearchGather r0 r1 (.ok []) r3 r4)
    ∧ (∀ (r0 r1 r2 : Except Unit (List SearchResultR)) (r4 : Except Unit (List NYTReviewR)),
        unpackSearchGather r0 r1 r2 (.error ()) r4 = unpackSearchGather r0 r1 r2 (.ok []) r4)
    ∧ (∀ (r0 r1 r2 : Except Unit (List SearchResultR)) (r3 : Except Unit (List GuardianArticleR)),
        unpackSearchGather r0 r1 r2 r3 (.error ()) = unpackSearchGather r0 r1 r2 r3 (.ok []))
    ∧ (∀ (l0 l1 l2 : List SearchResultR) (g : List GuardianArticleR) (n : List NYTReviewR),
        unpackSearchGather (.ok l0) (.ok l1) (.ok l2) (.ok g) (.ok n)
          = l0 ++ l1 ++ l2 ++ g.map (fun a => ⟨a.headline, a.url, a.snippet⟩)
            ++ n.map (fun a => ⟨a.headline, a.url, a.summary⟩))
    ∧ (∀ (r0 r2 : Except Unit (List SearchResultR)) (r3 : Except Unit (List GuardianArticleR))
        (r4 : Except Unit (List NYTReviewR)) (l1 : List SearchResultR),
        l1 <:+: unpackSearchGather r0 (.ok l1) r2 r3 r4)
    ∧ (unpackOmdb (Except.error () : Except Unit (Option ℚ)) = none) := by
  refine ⟨?_, fun _ _ _ _ => rfl, fun _ _ _ _ => rfl, fun _ _ _ _ => rfl,
    fun _ _ _ _ => rfl, fun _ _ _ _ => rfl, fun _ _ _ _ _ => by simp [unpackSearchGather],
    ?_, rfl⟩
  · intro h
    exact absurd h.2 (by decide)
  · intro r0 r2 r3 r4 l1
    have key : ∀ (A B : List SearchResultR), l1 <:+: A ++ (l1 ++ B) :=
      fun A B => ⟨A, B, by simp⟩
    cases r0 <;> cases r2 <;> cases r3 <;> cases r4 <;>
      simp only [unpackSearchGather, List.append_assoc] <;>
      exact key _ _

/-- C8, witness: the arity mismatch, and one surviving branch among four
failed ones still reaching the merged list. -/
theorem searchFanout_arity_and_isolation_witness :
    (¬ pyCallBinds serper_search_required serper_search_optional pipeline_serper_call_args)
    ∧ [(⟨"t", "l", "s"⟩ : SearchResultR)] <:+:
        unpackSearchGather (.error ()) (.ok [⟨"t", "l", "s"⟩]) (.error ()) (.ok []) (.error ()) :=
  ⟨searchFanout_arity_and_isolation.1,
   searchFanout_arity_and_isolation.2.2.2.2.2.2.2.1 (.error ()) (.error ()) (.ok []) (.error ()) _⟩


/-- C3.  Synthesizer failover chain: with a fallback client configured, a
successful primary call is the only call; a failed primary call is retried
exactly once on the secondary provider with the identical (user) prompt; if
both fail, a knowledge-only prompt is issued; if that also fails the result
is the static degraded output — verdict MIXED BAG, explanatory placeholder
text, confidence LOW.  The embedding is total, mirroring that every path of
the source returns an output rather than propagating an exception. -/
theorem synthesize_review_failover (w : LLMWorld) (hfb : w.hasFallbackClient = true) :
    (∀ c, w.primaryResult = some c →
        (synthesize_review w).2 = [⟨.primary, .userPrompt⟩])
    ∧ (w.primaryResult = none →
        (synthesize_review w).2.take 2
          = [⟨.primary, .userPrompt⟩, ⟨.secondary, .userPrompt⟩])
    ∧ (w.primaryResult = none →
        ((synthesize_review w).2.countP (fun c => c.provider == LLMProvider.secondary)) = 1)
    ∧ (w.primaryResult = none → w.secondaryResult = none →
        (synthesize_review w).2
          = [⟨.primary, .userPrompt⟩, ⟨.secondary, .userPrompt⟩,
             ⟨.knowledge, .knowledgePrompt⟩])
    ∧ (w.primaryResult = none → w.secondaryResult = none → w.knowledgeResult = none →
        (synthesize_review w).1 = degradedServiceOutput)
    ∧ degradedServiceOutput.verdict = "MIXED BAG"
    ∧ degradedServiceOutput.confidence = "LOW"
    ∧ degradedServiceOutput.review_text
        = "We are having trouble reaching our AI critics right now. Please try again in a moment." := by
  refine ⟨?_, ?_, ?_, ?_, ?_, rfl, rfl, rfl⟩
  · intro c hp; simp [synthesize_review, hp]
  · intro hp
    rcases hs : w.secondaryResult with _ | c <;>
      rcases hk : w.knowledgeResult with _ | k <;>
      simp [synthesize_review, hp, hfb, hs, hk]
  · intro hp
    rcases hs : w.secondaryResult with _ | c <;>
      rcases hk : w.knowledgeResult with _ | k <;>
      simp [synthesize_review, hp, hfb, hs, hk, List.countP, List.countP.go] <;>
      decide
  · intro hp hs
    rcases hk : w.knowledgeResult with _ | c <;>
      simp [synthesize_review, hp, hfb, hs, hk]
  · intro hp hs hk
    simp [synthesize_review, hp, hfb, hs, hk]

/-- C3, witness: all three calls fail — three calls traced, degraded static
result returned. -/
theorem synthesize_review_failover_witness :
    (synthesize_review ⟨none, none, none, true, fun _ => none⟩).1 = degradedServiceOutput
    ∧ (synthesize_review ⟨none, none, none, true, fun _ => none⟩).2
      = [⟨.primary, .userPrompt⟩, ⟨.secondary, .userPrompt⟩, ⟨.knowledge, .knowledgePrompt⟩]
    ∧ degradedServiceOutput.verdict = "MIXED BAG"
    ∧ degradedServiceOutput.confidence = "LOW" := by
  have h := synthesize_review_failover ⟨none, none, none, true, fun _ => none⟩ rfl
  exact ⟨h.2.2.2.2.1 rfl rfl rfl, h.2.2.2.1 rfl rfl, h.2.2.2.2.2.1, h.2.2.2.2.2.2.1⟩

/-- C9, counterexample.  Nothing validates the sentiment triple: a provider
response with `positive_pct/negative_pct/mixed_pct = 40/30/10` (sum 80) is
accepted and returned unchanged by `synthesize_review`. -/
theorem sentiment_sum_counterexample :
    ((synthesize_review
        ⟨some "body", none, none, true, fun _ => some
          { review_text := some "ok", verdict := some "WORTH IT",
            positive_pct := some 40, negative_pct := some 30,
            mixed_pct := some 10 }⟩).1.positive_pct = some 40)
    ∧ ((synthesize_review
        ⟨some "body", none, none, true, fun _ => some
          { review_text := some "ok", verdict := some "WORTH IT",
            positive_pct := some 40, negative_pct := some 30,
            mixed_pct := some 10 }⟩).1.negative_pct = some 30)
    ∧ ((synthesize_review
        ⟨some "body", none, none, true, fun _ => some
          { review_text := some "ok", verdict := some "WORTH IT",
            positive_pct := some 40, negative_pct := some 30,
            mixed_pct := some 10 }⟩).1.mixed_pct = some 10)
    ∧ (40 + 30 + 10 ≠ 100) := by
  exact ⟨rfl, rfl, rfl, by decide⟩

/-- C9, amended.  The sentiment triple is passed through schema validation
unchanged — whatever integers (or absences) the provider produced are
accepted, with no sum-to-100 constraint (that requirement exists only as a
prompt instruction); and both static fallback outputs omit the triple
entirely. -/
theorem sentiment_triple_unvalidated (raw : RawLLMData) (out : LLMReviewOutput)
    (h : validateLLMOutput (sanitizeRawData raw) = some out) :
    (out.positive_pct = raw.positive_pct ∧ out.negative_pct = raw.negative_pct ∧
      out.mixed_pct = raw.mixed_pct)
    ∧ (degradedServiceOutput.positive_pct = none ∧ degradedServiceOutput.negative_pct = none
        ∧ degradedServiceOutput.mixed_pct = none)
    ∧ ((parseFailOutput "x").positive_pct = none ∧ (parseFailOutput "x").negative_pct = none
        ∧ (parseFailOutput "x").mixed_pct = none) := by
  refine ⟨?_, ⟨rfl, rfl, rfl⟩, ⟨rfl, rfl, rfl⟩⟩
  rcases hrt : raw.review_text with _ | rt <;> rcases hv : raw.verdict with _ | v <;>
    simp only [validateLLMOutput, sanitizeRawData, hrt, hv, Option.map_some', Option.map_none'] at h
  · exact absurd h (by simp)
  · exact absurd h (by simp)
  · exact absurd h (by simp)
  · split_ifs at h with hverd hconf
    · rw [Option.some_inj] at h
      subst h
      exact ⟨rfl, rfl, rfl⟩

/-- C9, witness: a concrete accepted output whose triple equals the raw
triple (40/30/10). -/
theorem sentiment_triple_unvalidated_witness :
    (({ review_text := "ok", verdict := "WORTH IT",
        positive_pct := some 40, negative_pct := some 30, mixed_pct := some 10 } :
          LLMReviewOutput).positive_pct
        = ({ review_text := some "ok", verdict := some "WORTH IT",
             positive_pct := some 40, negative_pct := some 30, mixed_pct := some 10 } :
               RawLLMData).positive_pct
      ∧ ({ review_text := "ok", verdict := "WORTH IT",
           positive_pct := some 40, negative_pct := some 30, mixed_pct := some 10 } :
             LLMReviewOutput).negative_pct
        = ({ review_text := some "ok", verdict := some "WORTH IT",
             positive_pct := some 40, negative_pct := some 30, mixed_pct := some 10 } :
               RawLLMData).negative_pct
      ∧ ({ review_text := "ok", verdict := "WORTH IT",
           positive_pct := some 40, negative_pct := some 30, mixed_pct := some 10 } :
             LLMReviewOutput).mixed_pct
        = ({ review_text := some "ok", verdict := some "WORTH IT",
             positive_pct := some 40, negative_pct := some 30, mixed_pct := some 10 } :
               RawLLMData).mixed_pct)
    ∧ (degradedServiceOutput.positive_pct = none ∧ degradedServiceOutput.negative_pct = none
        ∧ degradedServiceOutput.mixed_pct = none)
    ∧ ((parseFailOutput "x").positive_pct = none ∧ (parseFailOutput "x").negative_pct = none
        ∧ (parseFailOutput "x").mixed_pct = none) :=
  sentiment_triple_unvalidated
    { review_text := some "ok", verdict := some "WORTH IT",
      positive_pct := some 40, negative_pct := some 30, mixed_pct := some 10 }
    { review_text := "ok", verdict := "WORTH IT",
      positive_pct := some 40, negative_pct := some 30, mixed_pct := some 10 }
    (by rfl)

/-- An index returned by `listRfindAux` is within the list. -/
theorem listRfindAux_lt_length (c : Char) :
    ∀ (s : List Char) (p : ℕ), listRfindAux c s = some p → p < s.length
  | [], p => by simp [listRfindAux]
  | x :: xs, p => by
      intro h
      simp only [listRfindAux] at h
      rcases hr : listRfindAux c xs with _ | i <;> rw [hr] at h
      · split_ifs at h with hx
        rw [Option.some_inj] at h
        simp only [List.length_cons]
        omega
      · rw [Option.some_inj] at h
        have := listRfindAux_lt_length c xs i hr
        simp only [List.length_cons]
        omega

/-- `truncateCritic` never exceeds both the budget and the input length. -/
theorem truncateCritic_length_le (f : String) (limit : ℕ) :
    (truncateCritic f limit).length ≤ max limit f.length := by
  by_cases hlen : f.length > limit
  · simp only [truncateCritic, if_pos hlen]
    rcases hr : listRfindAux '.' (f.toList.take limit) with _ | p <;> dsimp only
    · simp only [String.length, List.length_take]
      omega
    · have hp := listRfindAux_lt_length '.' _ _ hr
      rw [List.length_take] at hp
      have hfl : f.toList.length = f.length := rfl
      split_ifs
      · simp only [String.length, List.length_take]
        omega
      · simp only [String.length, List.length_take]
        omega
  · simp only [truncateCritic, if_neg hlen]
    omega

/-- C10.  Synthesizer input cap: the opinions string interpolated into the
provider prompt is always exactly the first `MAX_OPINIONS_CHARS` (10,000)
characters of what `synthesize_review` was given; the pipeline's corpus
assembly places the audience (Reddit) block first whenever it is non-empty,
and caps the critic block at the `MAX_LLM_CHARS` (15,000) budget minus the
Reddit reservation — so at most the first 10,000 characters of the
assembled corpus ever reach a provider. -/
theorem synthesizer_input_cap :
    (∀ opinions : String,
        opinionsForPrompt opinions = String.mk (opinions.toList.take MAX_OPINIONS_CHARS)
        ∧ (opinionsForPrompt opinions).length ≤ MAX_OPINIONS_CHARS)
    ∧ (∀ (snippets : List String) (filtered : String),
        redditTextOf snippets ≠ "" →
        (audienceHeader ++ redditTextOf snippets).toList
          <+: (assembleFinalOpinions snippets filtered).toList)
    ∧ (∀ (snippets : List String) (filtered : String),
        (truncateCritic filtered (criticLimitOf (redditTextOf snippets))).length
            ≤ max (criticLimitOf (redditTextOf snippets)) filtered.length
        ∧ criticLimitOf (redditTextOf snippets) ≤ MAX_LLM_CHARS)
    ∧ (∀ (snippets : List String) (filtered : String),
        opinionsForPrompt (assembleFinalOpinions snippets filtered)
          = String.mk ((assembleFinalOpinions snippets filtered).toList.take
              MAX_OPINIONS_CHARS)) := by
  have hlist : ∀ s : String, s.toList.length = s.length := fun _ => rfl
  have hcap : ∀ opinions : String,
      opinionsForPrompt opinions = String.mk (opinions.toList.take MAX_OPINIONS_CHARS)
      ∧ (opinionsForPrompt opinions).length ≤ MAX_OPINIONS_CHARS := by
    intro opinions
    by_cases hlen : opinions.length > MAX_OPINIONS_CHARS
    · have heq : opinionsForPrompt opinions = String.mk (opinions.toList.take MAX_OPINIONS_CHARS) := by
        simp [opinionsForPrompt, hlen]
      refine ⟨heq, ?_⟩
      rw [heq]
      simp only [String.length, List.length_take]
      omega
    · refine ⟨?_, by simp only [opinionsForPrompt, if_neg hlen]; omega⟩
      simp only [opinionsForPrompt, if_neg hlen]
      have ht : opinions.toList.take MAX_OPINIONS_CHARS = opinions.toList := by
        apply List.take_of_length_le
        rw [hlist]
        omega
      rw [ht]
      cases opinions
      rfl
  refine ⟨hcap, ?_, ?_, fun snippets filtered => (hcap _).1⟩
  · intro snippets filtered hr
    have hne : (redditTextOf snippets).isEmpty = false := by
      cases h : String.isEmpty (redditTextOf snippets)
      · rfl
      · exact absurd ((String.isEmpty_iff _).mp h) hr
    refine ⟨("\n\n" ++ criticHeader ++
      truncateCritic filtered (criticLimitOf (redditTextOf snippets))).toList, ?_⟩
    simp only [assembleFinalOpinions, hne, Bool.not_false, if_pos]
    cases haud : audienceHeader
    simp [String.toList, String.data_append]
  · intro snippets filtered
    refine ⟨truncateCritic_length_le _ _, ?_⟩
    by_cases h : (redditTextOf snippets).isEmpty
    · simp [criticLimitOf, h]
    · simp only [criticLimitOf, h, Bool.false_eq_true, if_false]
      exact Nat.sub_le _ _

/-- C10, witness: concrete snippet list and critic text. -/
theorem synthesizer_input_cap_witness :
    (opinionsForPrompt "abc" = String.mk ("abc".toList.take MAX_OPINIONS_CHARS))
    ∧ (audienceHeader ++ redditTextOf ["good movie"]).toList
        <+: (assembleFinalOpinions ["good movie"] "critics liked it.").toList := by
  have h := synthesizer_input_cap
  exact ⟨(h.1 "abc").1, h.2.1 ["good movie"] "critics liked it." (by decide)⟩

end WorthTheWatch
